import Mathlib

/-!
Verification of the otello client library (otello/mozart.py, otello/utils.py):
a shallow embedding of the job-type / job / job-set logic, with theorems about
parameter merging, validation, tag generation, priority handling and the
completion-polling loops.
-/

namespace Otello

/-- Python-style JSON-ish values: the shapes that flow through the otello
parameter dictionaries (None, bool, int, str, list, dict). -/
inductive PyVal where
  | none : PyVal
  | bool : Bool → PyVal
  | int : Int → PyVal
  | str : String → PyVal
  | list : List PyVal → PyVal
  | dict : List (String × PyVal) → PyVal

/-- Python dict lookup `d[k]` / `d.get(k)`: first (and in a real dict, only)
entry whose key matches. -/
def dictLookup (d : List (String × α)) (k : String) : Option α :=
  match d with
  | [] => Option.none
  | p :: rest => if p.1 == k then some p.2 else dictLookup rest k

/-- Python dict assignment `d[k] = v`: if the key is present its value is
updated in place (position preserved), otherwise the pair is appended at the
end, matching CPython insertion-order semantics. -/
def dictInsert (d : List (String × α)) (k : String) (v : α) : List (String × α) :=
  if d.any (fun p => p.1 == k) then
    d.map (fun p => if p.1 == k then (k, v) else p)
  else
    d ++ [(k, v)]

/-- Python `{**a, **b}`: start from `a` and assign every entry of `b` in
order, so on a key collision the `b` value wins. -/
def dictMerge (a b : List (String × α)) : List (String × α) :=
  b.foldl (fun acc p => dictInsert acc p.1 p.2) a

/-- A dict whose keys are distinct, as every real Python dict is. -/
def NodupKeys (d : List (String × α)) : Prop :=
  (d.map Prod.fst).Nodup

instance (d : List (String × α)) : Decidable (NodupKeys d) := by
  unfold NodupKeys; infer_instance

theorem dictLookup_append (a b : List (String × α)) (k : String) :
    dictLookup (a ++ b) k =
      match dictLookup a k with
      | some v => some v
      | Option.none => dictLookup b k := by
  induction a with
  | nil => simp [dictLookup]
  | cons p rest ih =>
    simp only [List.cons_append, dictLookup]
    by_cases h : p.1 = k
    · simp [h]
    · simp only [beq_iff_eq, h, if_false]
      exact ih

theorem dictLookup_none_of_any_eq_false (d : List (String × α)) (k : String)
    (h : d.any (fun p => p.1 == k) = false) : dictLookup d k = Option.none := by
  induction d with
  | nil => rfl
  | cons p rest ih =>
    simp only [List.any_cons, Bool.or_eq_false_iff] at h
    simp only [dictLookup, h.1, if_false]
    exact ih h.2

theorem dictLookup_map_replace_ne (d : List (String × α)) (k k' : String) (v : α)
    (hne : k' ≠ k) :
    dictLookup (d.map (fun p => if p.1 == k then (k, v) else p)) k' = dictLookup d k' := by
  induction d with
  | nil => rfl
  | cons p rest ih =>
    simp only [List.map_cons, dictLookup]
    by_cases hp : p.1 = k
    · rw [if_pos (show (p.1 == k) = true by simpa using hp)]
      show dictLookup ((k, v) :: _) k' = _
      simp only [dictLookup]
      rw [if_neg (show ¬((k == k') = true) by simpa using fun h => hne h.symm),
        if_neg (show ¬((p.1 == k') = true) by
          simp only [beq_iff_eq, hp]
          exact fun h => hne h.symm)]
      exact ih
    · rw [if_neg (show ¬((p.1 == k) = true) by simpa using hp)]
      by_cases hk2 : (p.1 == k') = true
      · rw [if_pos hk2, if_pos hk2]
      · rw [if_neg hk2, if_neg hk2]
        exact ih

theorem dictLookup_insert (d : List (String × α)) (k k' : String) (v : α) :
    dictLookup (dictInsert d k v) k' = if k' = k then some v else dictLookup d k' := by
  unfold dictInsert
  by_cases hmem : d.any (fun p => p.1 == k) = true
  · rw [if_pos hmem]
    by_cases hk : k' = k
    · subst hk
      induction d with
      | nil => simp at hmem
      | cons p rest ih =>
        simp only [List.any_cons, Bool.or_eq_true] at hmem
        by_cases hp : p.1 = k'
        · rw [if_pos rfl]
          simp only [List.map_cons]
          rw [if_pos (show (p.1 == k') = true by simpa using hp)]
          simp [dictLookup]
        · simp only [List.map_cons]
          rw [if_neg (show ¬((p.1 == k') = true) by simpa using hp)]
          simp only [dictLookup]
          rw [if_neg (show ¬((p.1 == k') = true) by simpa using hp)]
          rcases hmem with hmem | hmem
          · exact absurd (by simpa using hmem) hp
          · simpa using ih hmem
    · rw [if_neg hk]
      exact dictLookup_map_replace_ne d k k' v hk
  · rw [if_neg hmem]
    rw [dictLookup_append]
    by_cases hk : k' = k
    · subst hk
      rw [dictLookup_none_of_any_eq_false d k'
        (by simp only [Bool.not_eq_true] at hmem; exact hmem)]
      simp [dictLookup]
    · rw [if_neg hk]
      have hsingle : dictLookup [(k, v)] k' = Option.none := by
        simp only [dictLookup]
        rw [if_neg (show ¬((k == k') = true) by simpa using fun h => hk h.symm)]
      cases h : dictLookup d k' <;> simp [hsingle, h]

theorem dictLookup_none_of_not_mem_keys (d : List (String × α)) (k : String)
    (h : k ∉ d.map Prod.fst) : dictLookup d k = Option.none := by
  induction d with
  | nil => rfl
  | cons p rest ih =>
    simp only [List.map_cons, List.mem_cons, not_or] at h
    simp only [dictLookup]
    rw [if_neg (show ¬((p.1 == k) = true) by simpa using fun hh => h.1 hh.symm)]
    exact ih h.2

/-- Lookup in a Python `{**a, **b}` merge: the `b` binding wins on collision,
otherwise the `a` binding survives (for a `b` with distinct keys, as every
real dict has). -/
theorem dictLookup_merge (a b : List (String × α)) (k : String) (hb : NodupKeys b) :
    dictLookup (dictMerge a b) k =
      match dictLookup b k with
      | some v => some v
      | Option.none => dictLookup a k := by
  induction b generalizing a with
  | nil => simp [dictMerge, dictLookup]
  | cons p rest ih =>
    have hb' : NodupKeys rest := by
      unfold NodupKeys at hb ⊢
      exact (List.nodup_cons.mp hb).2
    have hp : p.1 ∉ rest.map Prod.fst := by
      unfold NodupKeys at hb
      exact (List.nodup_cons.mp hb).1
    show dictLookup (dictMerge (dictInsert a p.1 p.2) rest) k = _
    rw [ih (dictInsert a p.1 p.2) hb']
    by_cases hk : k = p.1
    · subst hk
      rw [dictLookup_none_of_not_mem_keys rest p.1 hp]
      simp [dictLookup, dictLookup_insert]
    · conv_rhs => simp only [dictLookup]
      rw [if_neg (show ¬((p.1 == k) = true) by simpa using fun h => hk h.symm)]
      cases h : dictLookup rest k
      · simp [dictLookup_insert, hk]
      · simp

/-! ## Python string primitives

`str.replace` and `str.split` are modelled on character lists so that every
definition evaluates inside the kernel. -/

/-- Python `str.replace` scan: left to right, replacing non-overlapping
occurrences of the pattern. Structural recursion on a fuel that starts at the
length of the scanned list, which every step decreases by at least one
consumed character. -/
def pyReplaceFuel (pat rep : List Char) : Nat → List Char → List Char
  | 0, l => l
  | _ + 1, [] => []
  | fuel + 1, c :: rest =>
    if pat.isPrefixOf (c :: rest) then
      rep ++ pyReplaceFuel pat rep fuel (rest.drop (pat.length - 1))
    else
      c :: pyReplaceFuel pat rep fuel rest

/-- Python `s.replace(pat, rep)` (all occurrences, left to right). -/
def pyReplace (s pat rep : String) : String :=
  String.mk (pyReplaceFuel pat.toList rep.toList s.toList.length s.toList)

/-- Python `str.split` scan with a non-empty separator: `acc` holds the
current field reversed, fuel as in `pyReplaceFuel`. -/
def pySplitFuel (sep : List Char) (acc : List Char) : Nat → List Char → List (List Char)
  | 0, _ => [acc.reverse]
  | _ + 1, [] => [acc.reverse]
  | fuel + 1, c :: rest =>
    if sep.isPrefixOf (c :: rest) then
      acc.reverse :: pySplitFuel sep [] fuel (rest.drop (sep.length - 1))
    else
      pySplitFuel sep (c :: acc) fuel rest

/-- Python `s.split(sep)` for a non-empty separator. -/
def pySplit (s sep : String) : List String :=
  (pySplitFuel sep.toList [] s.toList.length s.toList).map String.mk

/-- Python `s.startswith(pre)`. -/
def pyStartsWith (s pre : String) : Bool :=
  pre.toList.isPrefixOf s.toList

/-- Whether an exception-returning computation succeeded. -/
def exceptIsOk : Except ε α → Bool
  | Except.ok _ => true
  | Except.error _ => false

/-! ## Data model (otello/mozart.py) -/

/-- One entry of the `hysds_ios['params']` schema list: `name`, `from`
(origin: `value`, `submitter`, or `dataset_jpath:<path>`), `type`, optional
`default`, `optional` flag (Python `p.get('optional', False)`), `enumerables`
for enums, an optional `lambda` extraction-expression string, and an optional
`placeholder` description. `from` and `lambda` are Lean keywords, hence the
trailing underscores. -/
structure ParamDef where
  name : String
  from_ : String
  type_ : String
  default_value : Option PyVal := Option.none
  optional : Bool := false
  enumerables : List PyVal := []
  lambda_ : Option String := Option.none
  placeholder : Option String := Option.none

/-- The `hysds_ios` document stored by `_retrieve_hysds_ios` (`res['result']`):
the fields `describe` and submission read. -/
structure HysdsIosDoc where
  job_specification : String
  label : Option String := Option.none
  params : List ParamDef := []

/-- The mutable state of a `JobType` object. In the source, `self.hysds_ios`
starts as the empty (falsy) dict `{}` and is replaced by the retrieved schema
document; `Option.none` models the empty initial dict, so Python's
`if not self.hysds_ios` is `hysds_ios = Option.none` here. The three parameter
dicts live in `self._params`. -/
structure JobTypeState where
  hysds_io_id : String
  job_spec : String
  label : Option String := Option.none
  hysds_ios : Option HysdsIosDoc := Option.none
  queues : List (String × List String) := []
  default_queue : Option String := Option.none
  dataset_params : List (String × PyVal) := []
  hardwired_params : List (String × PyVal) := []
  input_params : List (String × PyVal) := []

/-! ## otello/utils.py -/

/-- Modelled from the spec: `generate_tags` is imported from `otello.utils`
(`from otello.utils import generate_tags`) but the `utils.py` in this tree
only defines an unrelated `decorator`; the spec says the generated tag
combines a fixed namespace token, the action label (`submit_job`, `revoke`,
`purge`, `retry`) and a current ISO-8601 timestamp. The current time is an
explicit argument here. -/
def generate_tags (action : String) (now : String) : String :=
  "otello" ++ "_" ++ action ++ "_" ++ now

/-! ## Mozart (driver) -/

/-- `Mozart.STATUS_TYPES`, the set `{QUEUED, STARTED, COMPLETED, FAILED,
OFFLINE}` of lines 25-30: five members — the class defines no `DEDUPED`
constant and the set does not contain `job-deduped`. -/
def STATUS_TYPES : List String :=
  ["job-queued", "job-started", "job-completed", "job-failed", "job-offline"]

/-- The validation / query-construction prefix of `Mozart.get_jobs` (lines
87-118), everything that runs before the first network request of the
pagination loop. `username` is `self._cfg.get('username')`; time filters are
taken already formatted (the `datetime`/`date` branch only reformats them).
Returns the `params` dict the first request would carry, or the error raised
before any request. -/
def get_jobs_params (username : Option String) (tag job_type queue : Option String)
    (priority : Option Int) (status : Option String)
    (start_time end_time : Option String) :
    Except String (List (String × PyVal)) :=
  match username with
  | Option.none => Except.error "username not found, please initialize otello"
  | some _ =>
    let params : List (String × PyVal) := []
    let params := match tag with
      | some t => dictInsert params "tag" (PyVal.str t)
      | Option.none => params
    let params := match job_type with
      | some j => dictInsert params "job_type" (PyVal.str j)
      | Option.none => params
    let params := match queue with
      | some q => dictInsert params "queue" (PyVal.str q)
      | Option.none => params
    let params := match priority with
      | some p =>
        dictInsert params "priority" (PyVal.int (if p < 0 then 0 else if p > 9 then 9 else p))
      | Option.none => params
    match status with
    | some st =>
      if st ∈ STATUS_TYPES then
        let params := dictInsert params "status" (PyVal.str st)
        let params := match start_time with
          | some t => dictInsert params "start_time" (PyVal.str t)
          | Option.none => params
        let params := match end_time with
          | some t => dictInsert params "end_time" (PyVal.str t)
          | Option.none => params
        Except.ok params
      else
        Except.error ("job status must be in " ++ String.intercalate ", " STATUS_TYPES)
    | Option.none =>
      let params := match start_time with
        | some t => dictInsert params "start_time" (PyVal.str t)
        | Option.none => params
      let params := match end_time with
        | some t => dictInsert params "end_time" (PyVal.str t)
        | Option.none => params
      Except.ok params

/-! ## JobType operations -/

/-- `JobType.describe` (lines 289-341): raises when the schema dict is still
empty, otherwise prints the description and returns `None`. The printed text
is console I/O; the embedding keeps the guard and the success/failure
outcome. -/
def describe (s : JobTypeState) : Except String Unit :=
  match s.hysds_ios with
  | Option.none =>
    Except.error "Job specifications is empty, please initialize the JobType with .initialize()"
  | some _ => Except.ok ()

/-- Python `==` between an `int` and a `dict` (`len(self.queues) == {}`):
`int.__eq__` and `dict.__eq__` both return `NotImplemented` for the foreign
type, so the comparison is always `False`. -/
def pyEqIntDict (_n : Nat) (_d : List (String × PyVal)) : Bool :=
  false

/-- Result dict of `JobType.get_queues`. -/
structure QueuesResult where
  queues : List (String × List String)
  default_queue : Option String

/-- `JobType.get_queues` (lines 343-354). The guard is
`if len(self.queues) == {}`, an `int`-vs-`dict` comparison that is always
`False`, so the not-initialized branch is unreachable. -/
def get_queues (s : JobTypeState) : Except String QueuesResult :=
  if pyEqIntDict s.queues.length [] then
    Except.error "Please initialize the JobType object with .initialize()"
  else
    Except.ok { queues := s.queues, default_queue := s.default_queue }

/-- Walk of `for path in parsed_path: ds = ds[path]` (lines 459-460):
indexing a dict by a missing key raises `KeyError`, indexing a non-dict by a
string raises `TypeError`; both are `Option.none` here. -/
def walkPath (ds : PyVal) (path : List String) : Option PyVal :=
  match path with
  | [] => some ds
  | seg :: rest =>
    match ds with
    | PyVal.dict d =>
      match dictLookup d seg with
      | some v => walkPath v rest
      | Option.none => Option.none
    | _ => Option.none

/-- `JobType.set_input_dataset` (lines 434-461). On an exception the Python
object keeps the `dataset_params` entries already assigned; the embedding
reports only the raised error, which is all the claims observe. The
`'lambda' in p` branch `eval`s an arbitrary server-supplied expression; code
execution is outside the embedding and no claim exercises it. -/
def set_input_dataset (s : JobTypeState) (dataset : Option PyVal) :
    Except String JobTypeState :=
  match dataset with
  | Option.none => Except.error "dataset must be set for your job"
  | some ds =>
    match s.hysds_ios with
    | Option.none =>
      Except.error "Job specifications is empty, please initialize the JobType with .initialize()"
    | some ios =>
      let ds_params := ios.params.filter (fun p => pyStartsWith p.from_ "dataset_jpath")
      ds_params.foldlM (fun (st : JobTypeState) p =>
        match p.lambda_ with
        | some _ => Except.error "lambda extraction expressions are evaluated with eval"
        | Option.none =>
          let parsed_path := pyReplace (pyReplace p.from_ "dataset_jpath:" "") "_source." ""
          if parsed_path == "_id" then
            match ds with
            | PyVal.dict d =>
              match dictLookup d "id" with
              | some v =>
                Except.ok { st with dataset_params := dictInsert st.dataset_params p.name v }
              | Option.none => Except.error "KeyError: id"
            | _ => Except.error "TypeError: dataset is not subscriptable"
          else
            match walkPath ds (pySplit parsed_path ".") with
            | some v =>
              Except.ok { st with dataset_params := dictInsert st.dataset_params p.name v }
            | Option.none => Except.error "KeyError: missing path segment")
        s

/-- The form fields of the `job_payload` dict posted by `JobType.submit_job`
(lines 503-512); `params` is kept as the merged dict that `json.dumps`
serializes. -/
structure JobPayload where
  username : String
  queue : String
  priority : Int
  job_name : String
  tags : String
  type_ : String
  params : List (String × PyVal)
  enable_dedup : Bool

/-- `JobType.submit_job` (lines 472-520), up to the network POST: the checks
and payload construction that run before `self._session.post`. A result of
`Except.ok payload` means the request is issued with exactly that payload;
`username` is `self._cfg.get('username')` and `now` feeds the spec-modelled
`generate_tags`. Note there is no schema/initialization check and no priority
check anywhere in this function. -/
def submit_job (s : JobTypeState) (username : Option String) (queue : Option String)
    (tag : Option String) (priority : Int) (now : String) :
    Except String JobPayload :=
  if queue = Option.none ∧ s.default_queue = Option.none then
    Except.error "queue must be supplied"
  else
    let tag := match tag with
      | some t => t
      | Option.none => generate_tags "submit_job" now
    match username with
    | Option.none => Except.error "username not found, please initialize otello"
    | some username =>
      let params := dictMerge (dictMerge s.dataset_params s.hardwired_params) s.input_params
      let job_split := pySplit s.job_spec ":"
      Except.ok {
        username := username
        queue := (match queue with
          | some q => some q
          | Option.none => s.default_queue).getD ""
        priority := priority
        job_name := job_split.headD ""
        tags := "[\"" ++ tag ++ "\"]"
        type_ := s.job_spec
        params := params
        enable_dedup := false
      }

/-! ## Job lifecycle actions (revoke / remove / retry) -/

def PURGE_JOB_NAME : String := "job-lw-mozart-purge"

def RETRY_JOB_NAME : String := "job-lw-mozart-retry"

/-- The `params` dict posted by `Job.revoke` and `Job.remove`: an
elasticsearch term query on the job id, the operation, and the component. -/
structure PurgeParams where
  target_id : String
  operation : String
  component : String

/-- The `params` dict posted by `Job.retry` (lines 723-728). -/
structure RetryParams where
  retry_count_max : Int
  job_priority_increment : Int
  type_ : String
  retry_job_id : String

/-- The `job_payload` dict a lifecycle action posts to `job/submit`, generic
in the shape of its serialized `params`. -/
structure MgmtPayload (π : Type) where
  queue : String
  priority : Int
  job_name : String
  tags : String
  type_ : String
  params : π
  enable_dedup : Bool

/-- `Job.revoke` (lines 611-657) up to the POST. The priority guard in the
source is the chained comparison `9 < priority < 0`, i.e.
`9 < priority and priority < 0`. -/
def Job_revoke (job_id : String) (tags : Option String) (priority : Int)
    (version : String) (now : String) : MgmtPayload PurgeParams :=
  let tags := match tags with
    | some t => t
    | Option.none => generate_tags "revoke" now
  let priority := if 9 < priority ∧ priority < 0 then 5 else priority
  { queue := "system-jobs-queue"
    priority := priority
    job_name := PURGE_JOB_NAME
    tags := "[\"" ++ tags ++ "\"]"
    type_ := PURGE_JOB_NAME ++ ":" ++ version
    params := { target_id := job_id, operation := "revoke", component := "mozart" }
    enable_dedup := false }

/-- `Job.remove` (lines 659-705) up to the POST; same always-false priority
guard, tag action label `purge`, operation `purge`. -/
def Job_remove (job_id : String) (tags : Option String) (priority : Int)
    (version : String) (now : String) : MgmtPayload PurgeParams :=
  let tags := match tags with
    | some t => t
    | Option.none => generate_tags "purge" now
  let priority := if 9 < priority ∧ priority < 0 then 5 else priority
  { queue := "system-jobs-queue"
    priority := priority
    job_name := PURGE_JOB_NAME
    tags := "[\"" ++ tags ++ "\"]"
    type_ := PURGE_JOB_NAME ++ ":" ++ version
    params := { target_id := job_id, operation := "purge", component := "mozart" }
    enable_dedup := false }

/-- `Job.retry` (lines 707-747) up to the POST; `job_info_id` is
`job_info['job']['job_info']['id']` fetched by the preceding `get_info`
call. -/
def Job_retry (job_info_id : String) (tags : Option String) (priority : Int)
    (version : String) (now : String) : MgmtPayload RetryParams :=
  let tags := match tags with
    | some t => t
    | Option.none => generate_tags "retry" now
  let priority := if 9 < priority ∧ priority < 0 then 5 else priority
  { queue := "system-jobs-queue"
    priority := priority
    job_name := RETRY_JOB_NAME
    tags := "[\"" ++ tags ++ "\"]"
    type_ := RETRY_JOB_NAME ++ ":" ++ version
    params := { retry_count_max := 10, job_priority_increment := 1,
                type_ := "_doc", retry_job_id := job_info_id }
    enable_dedup := false }

/-! ## Completion polling -/

/-- The terminal-status tuple of `Job.wait_for_completion` line 772 and
`JobSet.wait_for_completion` line 842. -/
def jobTerminalStates : List String :=
  ["job-failed", "job-deduped", "job-completed", "job-offline"]

/-- `Job.wait_for_completion` (lines 762-776). `queries i` is the outcome of
the `self.get_status()` call of iteration `i` (an `Except.error` models a
raised exception, which the source catches, prints and ignores). The loop is
unbounded in the source; `fuel` bounds how many iterations are unrolled and
`Option.none` means the loop was still running after `fuel` iterations.
`some status` means the loop returned `status`. -/
def jobWaitLoop (queries : Nat → Except String String) : Nat → Nat → Option String
  | 0, _ => Option.none
  | fuel + 1, i =>
    match queries i with
    | Except.ok status =>
      if status ∈ jobTerminalStates then some status
      else jobWaitLoop queries fuel (i + 1)
    | Except.error _ => jobWaitLoop queries fuel (i + 1)

/-- One pass of `JobSet.wait_for_completion` (lines 837-846): the
`completed_jobs` counter after the `for job in self.job_set` loop, where
`results` lists each member's `get_status()` outcome, in order. A raised
exception is caught, printed and counted exactly like a terminal status. -/
def jobsetPassCount (results : List (Except String String)) : Nat :=
  results.foldl (fun completed_jobs r =>
    match r with
    | Except.ok status =>
      if status ∈ jobTerminalStates then completed_jobs + 1 else completed_jobs
    | Except.error _ => completed_jobs + 1) 0

/-- A member's pass outcome counts as done: terminal status, or the query
raised. -/
def passOutcomeDone : Except String String → Bool
  | Except.ok status => status ∈ jobTerminalStates
  | Except.error _ => true

/-- The outer `while True` of `JobSet.wait_for_completion` (lines 835-849):
`passes p` lists the member query outcomes of pass `p`, `n` is
`len(self.job_set)`. The loop returns (Python `return`, value `None`) as soon
as a pass counts every member done; `some p` records that it returned during
pass `p`, `Option.none` that it was still looping after `fuel` passes. -/
def jobsetWaitLoop (passes : Nat → List (Except String String)) (n : Nat) :
    Nat → Nat → Option Nat
  | 0, _ => Option.none
  | fuel + 1, p =>
    if jobsetPassCount (passes p) = n then some p
    else jobsetWaitLoop passes n fuel (p + 1)

/-! ## General lemmas about the operations -/

/-- With an explicit queue and a configured username, `submit_job` reaches
the POST and the payload it sends is exactly this record: note the absence of
any schema, required-parameter or priority check on the way. -/
theorem submit_job_eq_ok (s : JobTypeState) (u q : String) (tag : Option String)
    (pr : Int) (now : String) :
    submit_job s (some u) (some q) tag pr now = Except.ok {
      username := u
      queue := q
      priority := pr
      job_name := (pySplit s.job_spec ":").headD ""
      tags := "[\"" ++ (match tag with
        | some t => t
        | Option.none => generate_tags "submit_job" now) ++ "\"]"
      type_ := s.job_spec
      params := dictMerge (dictMerge s.dataset_params s.hardwired_params) s.input_params
      enable_dedup := false } := rfl

/-! ## Claim theorems -/

/-- C10: `JobType.get_queues` never raises its not-initialized error: the
guard compares the integer `len(self.queues)` against the empty dict, which
is false in every state, so it always returns the stored queues and default;
on a never-initialized JobType that is the dict holding empty queues and a
`None` default. -/
theorem get_queues_never_raises :
    (∀ s : JobTypeState, get_queues s =
      Except.ok { queues := s.queues, default_queue := s.default_queue }) ∧
    get_queues { hysds_io_id := "hello", job_spec := "job-hello:develop" } =
      Except.ok { queues := [], default_queue := Option.none } := by
  exact ⟨fun s => rfl, rfl⟩

/-- C4: the out-of-range priority 15 is not normalized to 5 anywhere — the
guard `9 < priority < 0` of `revoke`, `remove` and `retry` is unsatisfiable
and `submit_job` has no priority handling at all — so 15 lands verbatim in
every constructed payload. -/
theorem priority_15_passes_through :
    (Job_revoke "j1" Option.none 15 "v1.0.5" "T").priority = 15 ∧
    (Job_remove "j1" Option.none 15 "v1.0.5" "T").priority = 15 ∧
    (Job_retry "j1" Option.none 15 "v1.0.5" "T").priority = 15 ∧
    (submit_job { hysds_io_id := "hello", job_spec := "job-hello:develop" }
        (some "user") (some "test-queue") Option.none 15 "T").map JobPayload.priority =
      Except.ok 15 := by
  refine ⟨rfl, rfl, rfl, rfl⟩

/-- C6: with no tag supplied, every submission entry point defaults the tag
to the spec-modelled `generate_tags` value — the fixed namespace token, the
action label and the ISO-8601 timestamp joined by underscores — wraps it as
the single-element JSON list string, and proceeds to the POST with it. -/
theorem default_tag_generated :
    (∀ (s : JobTypeState) (u q : String) (pr : Int) (now : String),
      (submit_job s (some u) (some q) Option.none pr now).map JobPayload.tags =
        Except.ok ("[\"" ++ generate_tags "submit_job" now ++ "\"]")) ∧
    (∀ (jid : String) (pr : Int) (v now : String),
      (Job_revoke jid Option.none pr v now).tags =
        "[\"" ++ generate_tags "revoke" now ++ "\"]") ∧
    (∀ (jid : String) (pr : Int) (v now : String),
      (Job_remove jid Option.none pr v now).tags =
        "[\"" ++ generate_tags "purge" now ++ "\"]") ∧
    (∀ (jid : String) (pr : Int) (v now : String),
      (Job_retry jid Option.none pr v now).tags =
        "[\"" ++ generate_tags "retry" now ++ "\"]") ∧
    (∀ action now : String,
      generate_tags action now = "otello" ++ "_" ++ action ++ "_" ++ now) := by
  refine ⟨fun s u q pr now => ?_, fun jid pr v now => rfl, fun jid pr v now => rfl,
    fun jid pr v now => rfl, fun action now => rfl⟩
  rw [submit_job_eq_ok]
  rfl

/-- C1: in the params dict `submit_job` serializes into its payload, every
key resolves with `input_params` overriding `hardwired_params` overriding
`dataset_params` — the `{**dataset, **hardwired, **input}` union in that
precedence order. -/
theorem submit_params_precedence (s : JobTypeState) (u q : String) (tag : Option String)
    (pr : Int) (now : String) (k : String)
    (hh : NodupKeys s.hardwired_params) (hi : NodupKeys s.input_params) :
    (submit_job s (some u) (some q) tag pr now).map (fun pl => dictLookup pl.params k) =
      Except.ok (match dictLookup s.input_params k with
        | some v => some v
        | Option.none =>
          match dictLookup s.hardwired_params k with
          | some v => some v
          | Option.none => dictLookup s.dataset_params k) := by
  rw [submit_job_eq_ok]
  show Except.ok (dictLookup (dictMerge (dictMerge s.dataset_params s.hardwired_params)
    s.input_params) k) = _
  rw [dictLookup_merge _ _ _ hi]
  cases h : dictLookup s.input_params k
  · rw [dictLookup_merge _ _ _ hh]
    cases h2 : dictLookup s.hardwired_params k <;> rfl
  · rfl

/-- C1 witness: a job type whose three parameter dicts all bind the key `x`
(dataset `d`, hardwired `h`, input `i`): the submitted payload carries the
`input_params` value `i` for `x`. -/
theorem submit_params_precedence_witness :
    NodupKeys [("x", PyVal.str "h"), ("z", PyVal.str "h")] ∧
    NodupKeys [("x", PyVal.str "i")] ∧
    (submit_job
        { hysds_io_id := "hw", job_spec := "job-x:v1",
          dataset_params := [("x", PyVal.str "d"), ("y", PyVal.str "d")],
          hardwired_params := [("x", PyVal.str "h"), ("z", PyVal.str "h")],
          input_params := [("x", PyVal.str "i")] }
        (some "user") (some "test-queue") (some "t") 1 "T").map
      (fun pl => dictLookup pl.params "x") = Except.ok (some (PyVal.str "i")) := by
  refine ⟨by decide, by decide, ?_⟩
  exact submit_params_precedence
    { hysds_io_id := "hw", job_spec := "job-x:v1",
      dataset_params := [("x", PyVal.str "d"), ("y", PyVal.str "d")],
      hardwired_params := [("x", PyVal.str "h"), ("z", PyVal.str "h")],
      input_params := [("x", PyVal.str "i")] }
    "user" "test-queue" (some "t") 1 "T" "x" (by decide) (by decide)

/-- C2 counterexample: a JobType whose schema declares the submitter
parameter `r` with no default and `optional=false`, left unset at submission
(`initialize` seeds it as `None`): `submit_job` raises no validation error —
it reaches the POST (and sends `r` as `null`). -/
theorem submit_job_no_required_check :
    exceptIsOk (submit_job
      { hysds_io_id := "hw", job_spec := "job-x:v1",
        hysds_ios := some
          { job_specification := "job-x:v1",
            params := [{ name := "r", from_ := "submitter", type_ := "text",
                         default_value := Option.none, optional := false }] },
        input_params := [("r", PyVal.none)] }
      (some "user") (some "test-queue") Option.none 1 "T") = true := rfl

/-- C2 amended: `submit_job` performs no required-parameter validation. For a
schema whose submitter parameter has no default and `optional=false` and
whose binding is still the seeded `None`, the call proceeds to issue the
submit request with that parameter serialized as `None`/`null` (the
"is required" check exists only in the interactive `prompt_input_params`
flow, which `submit_job` never invokes). -/
theorem submit_job_required_unset_flows_as_none (s : JobTypeState) (pname : String)
    (u q : String) (tag : Option String) (pr : Int) (now : String)
    (hschema : s.hysds_ios = some
      { job_specification := s.job_spec,
        params := [{ name := pname, from_ := "submitter", type_ := "text",
                     default_value := Option.none, optional := false }] })
    (hbound : dictLookup s.input_params pname = some PyVal.none)
    (hi : NodupKeys s.input_params) :
    (submit_job s (some u) (some q) tag pr now).map
      (fun pl => dictLookup pl.params pname) = Except.ok (some PyVal.none) := by
  rw [submit_job_eq_ok]
  show Except.ok (dictLookup (dictMerge (dictMerge s.dataset_params s.hardwired_params)
    s.input_params) pname) = _
  rw [dictLookup_merge _ _ _ hi, hbound]

/-- C2 amended witness: the concrete required-but-unset state flows `None`
through to the payload. -/
theorem submit_job_required_unset_witness :
    (submit_job
        { hysds_io_id := "hw", job_spec := "job-x:v1",
          hysds_ios := some
            { job_specification := "job-x:v1",
              params := [{ name := "r", from_ := "submitter", type_ := "text",
                           default_value := Option.none, optional := false }] },
          input_params := [("r", PyVal.none)] }
        (some "user") (some "test-queue") Option.none 1 "T").map
      (fun pl => dictLookup pl.params "r") = Except.ok (some PyVal.none) := by
  exact submit_job_required_unset_flows_as_none
    { hysds_io_id := "hw", job_spec := "job-x:v1",
      hysds_ios := some
        { job_specification := "job-x:v1",
          params := [{ name := "r", from_ := "submitter", type_ := "text",
                       default_value := Option.none, optional := false }] },
      input_params := [("r", PyVal.none)] }
    "r" "user" "test-queue" Option.none 1 "T" rfl rfl (by decide)

/-- C5 counterexample: on a JobType on which `initialize()` was never called
(empty schema), `submit_job` with an explicit queue and configured username
does not fail with a "not initialized" error — the parameter merge proceeds
and the request is issued. -/
theorem submit_job_skips_init_check :
    exceptIsOk (submit_job { hysds_io_id := "hw", job_spec := "job-x:v1" }
      (some "user") (some "test-queue") Option.none 1 "T") = true := rfl

/-- C5 amended: on a JobType with an empty schema, `describe()` and
`set_input_dataset()` fail with the "not initialized" error, but `submit_job`
performs no initialization check: its parameter merge proceeds and, given an
explicit queue and a configured username, the submission goes ahead. -/
theorem uninitialized_jobtype_guards (s : JobTypeState) (ds : PyVal) (u q : String)
    (tag : Option String) (pr : Int) (now : String) :
    describe { s with hysds_ios := Option.none } =
      Except.error "Job specifications is empty, please initialize the JobType with .initialize()" ∧
    set_input_dataset { s with hysds_ios := Option.none } (some ds) =
      Except.error "Job specifications is empty, please initialize the JobType with .initialize()" ∧
    exceptIsOk (submit_job { s with hysds_ios := Option.none }
      (some u) (some q) tag pr now) = true := by
  exact ⟨rfl, rfl, rfl⟩

/-- C3 counterexample: `job-deduped` is one of the six job states the module
itself handles (`get_status`, `wait_for_completion`), yet `get_jobs` rejects
it before any request, because `Mozart.STATUS_TYPES` only holds five
states. -/
theorem get_jobs_rejects_deduped :
    get_jobs_params (some "user") Option.none Option.none Option.none Option.none
      (some "job-deduped") Option.none Option.none =
      Except.error ("job status must be in " ++ String.intercalate ", " STATUS_TYPES) := rfl

/-- C3 amended: with a configured username, `get_jobs` with a non-None status
fails validation before any request exactly when the status is outside the
five-member `Mozart.STATUS_TYPES` set (`job-queued`, `job-started`,
`job-completed`, `job-failed`, `job-offline`); those five are accepted, and
the sixth known state `job-deduped` is rejected. -/
theorem get_jobs_status_validation (u : String) (tag job_type queue : Option String)
    (pr : Option Int) (st : String) (start_time end_time : Option String) :
    exceptIsOk (get_jobs_params (some u) tag job_type queue pr (some st)
      start_time end_time) = true ↔ st ∈ STATUS_TYPES := by
  unfold get_jobs_params
  by_cases hmem : st ∈ STATUS_TYPES
  · simp [hmem, exceptIsOk]
  · simp [hmem, exceptIsOk]

/-- C9: dataset-path extraction of `set_input_dataset` on an initialized
JobType: origin `dataset_jpath:_source.a.b` against dataset
`{"a": {"b": "v"}}` binds the parameter to `"v"` by walking the dot path;
origin `dataset_jpath:_source._id` against `{"id": "X123"}` binds the
dataset's `id` field `"X123"`; and a missing path segment (`{"a": {}}` for
path `a.b`) makes the call fail. -/
theorem set_input_dataset_extraction :
    (∀ (s : JobTypeState) (pname : String),
      (set_input_dataset
          { s with
            hysds_ios := some
              { job_specification := s.job_spec,
                params := [{ name := pname, from_ := "dataset_jpath:_source.a.b",
                             type_ := "text" }] } }
          (some (PyVal.dict [("a", PyVal.dict [("b", PyVal.str "v")])]))).map
        (fun s2 => dictLookup s2.dataset_params pname) =
      Except.ok (some (PyVal.str "v"))) ∧
    (∀ (s : JobTypeState) (pname : String),
      (set_input_dataset
          { s with
            hysds_ios := some
              { job_specification := s.job_spec,
                params := [{ name := pname, from_ := "dataset_jpath:_source._id",
                             type_ := "text" }] } }
          (some (PyVal.dict [("id", PyVal.str "X123")]))).map
        (fun s2 => dictLookup s2.dataset_params pname) =
      Except.ok (some (PyVal.str "X123"))) ∧
    (∀ (s : JobTypeState) (pname : String),
      exceptIsOk (set_input_dataset
          { s with
            hysds_ios := some
              { job_specification := s.job_spec,
                params := [{ name := pname, from_ := "dataset_jpath:_source.a.b",
                             type_ := "text" }] } }
          (some (PyVal.dict [("a", PyVal.dict [])]))) = false) := by
  refine ⟨fun s pname => ?_, fun s pname => ?_, fun s pname => rfl⟩
  · show Except.ok (dictLookup (dictInsert s.dataset_params pname (PyVal.str "v")) pname) = _
    rw [dictLookup_insert]
    simp
  · show Except.ok (dictLookup (dictInsert s.dataset_params pname (PyVal.str "X123")) pname) = _
    rw [dictLookup_insert]
    simp

/-! ## Lemmas about the polling loops -/

theorem jobWaitLoop_first_terminal_from (queries : Nat → Except String String)
    (base k : Nat) (st : String)
    (hq : queries (base + k) = Except.ok st) (hterm : st ∈ jobTerminalStates)
    (hbefore : ∀ j, j < k → ∀ s2, queries (base + j) = Except.ok s2 →
      s2 ∉ jobTerminalStates) :
    ∀ fuel, jobWaitLoop queries fuel base =
      if k < fuel then some st else Option.none := by
  induction k generalizing base with
  | zero =>
    intro fuel
    cases fuel with
    | zero => simp [jobWaitLoop]
    | succ fuel =>
      have hq0 : queries base = Except.ok st := hq
      simp only [jobWaitLoop, hq0]
      simp [hterm]
  | succ k ih =>
    intro fuel
    have hq1 : queries (base + 1 + k) = Except.ok st := by
      rw [show base + 1 + k = base + (k + 1) by omega]
      exact hq
    have hbefore1 : ∀ j, j < k → ∀ s2, queries (base + 1 + j) = Except.ok s2 →
        s2 ∉ jobTerminalStates := by
      intro j hj s2 hqj
      refine hbefore (j + 1) (by omega) s2 ?_
      rw [show base + (j + 1) = base + 1 + j by omega]
      exact hqj
    cases fuel with
    | zero => simp [jobWaitLoop]
    | succ fuel =>
      have hstep : jobWaitLoop queries (fuel + 1) base = jobWaitLoop queries fuel (base + 1) := by
        cases hqb : queries base with
        | error e => simp [jobWaitLoop, hqb]
        | ok s2 =>
          have hnt : s2 ∉ jobTerminalStates :=
            hbefore 0 (by omega) s2 (by simpa using hqb)
          simp [jobWaitLoop, hqb, hnt]
      rw [hstep, ih (base + 1) hq1 hbefore1 fuel]
      simp [Nat.succ_lt_succ_iff]

theorem jobWaitLoop_none_of_no_terminal (queries : Nat → Except String String)
    (h : ∀ j s2, queries j = Except.ok s2 → s2 ∉ jobTerminalStates) :
    ∀ fuel i, jobWaitLoop queries fuel i = Option.none := by
  intro fuel
  induction fuel with
  | zero => intro i; rfl
  | succ fuel ih =>
    intro i
    cases hqi : queries i with
    | error e => simp [jobWaitLoop, hqi, ih]
    | ok s2 => simp [jobWaitLoop, hqi, h i s2 hqi, ih]

/-- C7: `Job.wait_for_completion` returns exactly at the first status query
that yields one of the four terminal states — returning that status — and as
long as every query yields a non-terminal status or raises, it never
returns. -/
theorem job_wait_for_completion_terminal (queries : Nat → Except String String) :
    (∀ (i : Nat) (st : String),
      queries i = Except.ok st → st ∈ jobTerminalStates →
      (∀ j, j < i → ∀ s2, queries j = Except.ok s2 → s2 ∉ jobTerminalStates) →
      ∀ fuel, jobWaitLoop queries fuel 0 = if i < fuel then some st else Option.none) ∧
    ((∀ j s2, queries j = Except.ok s2 → s2 ∉ jobTerminalStates) →
      ∀ fuel i, jobWaitLoop queries fuel i = Option.none) := by
  constructor
  · intro i st hq hterm hbefore fuel
    exact jobWaitLoop_first_terminal_from queries 0 i st (by simpa using hq) hterm
      (by intro j hj; simpa using hbefore j hj) fuel
  · exact jobWaitLoop_none_of_no_terminal queries

/-- C7 witness: a trace that answers `job-queued`, then raises, then answers
`job-completed`: the loop survives the first two iterations (still running at
fuel 2) and returns `job-completed` on the third. -/
theorem job_wait_for_completion_witness :
    jobWaitLoop
      (fun j => if j = 0 then Except.ok "job-queued"
        else if j = 1 then Except.error "boom"
        else Except.ok "job-completed") 3 0 = some "job-completed" ∧
    jobWaitLoop
      (fun j => if j = 0 then Except.ok "job-queued"
        else if j = 1 then Except.error "boom"
        else Except.ok "job-completed") 2 0 = Option.none := by
  have hbefore : ∀ j, j < 2 → ∀ s2,
      (fun j => if j = 0 then Except.ok "job-queued"
        else if j = 1 then Except.error "boom"
        else Except.ok "job-completed") j = Except.ok s2 →
      s2 ∉ jobTerminalStates := by
    intro j hj s2 hq
    match j, hj with
    | 0, _ =>
      simp only [if_pos rfl] at hq
      cases hq
      decide
    | 1, _ =>
      simp at hq
  have h := (job_wait_for_completion_terminal
    (fun j => if j = 0 then Except.ok "job-queued"
      else if j = 1 then Except.error "boom"
      else Except.ok "job-completed")).1 2 "job-completed" rfl (by decide) hbefore
  exact ⟨h 3, h 2⟩

theorem jobsetPassCount_eq_countP (results : List (Except String String)) :
    jobsetPassCount results = results.countP passOutcomeDone := by
  have aux : ∀ (rs : List (Except String String)) (c : Nat),
      rs.foldl (fun completed_jobs r =>
        match r with
        | Except.ok status =>
          if status ∈ jobTerminalStates then completed_jobs + 1 else completed_jobs
        | Except.error _ => completed_jobs + 1) c = c + rs.countP passOutcomeDone := by
    intro rs
    induction rs with
    | nil => intro c; simp
    | cons r rest ih =>
      intro c
      cases r with
      | ok status =>
        by_cases hterm : status ∈ jobTerminalStates
        · simp only [List.foldl_cons, List.countP_cons, hterm, if_pos]
          rw [ih]
          simp [passOutcomeDone, hterm]
          omega
        · simp only [List.foldl_cons, List.countP_cons]
          rw [if_neg hterm, ih]
          simp [passOutcomeDone, hterm]
      | error e =>
        simp only [List.foldl_cons, List.countP_cons]
        rw [ih]
        simp [passOutcomeDone]
        omega
  have h := aux results 0
  simpa [jobsetPassCount] using h

theorem jobsetWaitLoop_first_full_pass_from
    (passes : Nat → List (Except String String)) (n base k : Nat)
    (hk : jobsetPassCount (passes (base + k)) = n)
    (hbefore : ∀ j, j < k → jobsetPassCount (passes (base + j)) ≠ n) :
    ∀ fuel, jobsetWaitLoop passes n fuel base =
      if k < fuel then some (base + k) else Option.none := by
  induction k generalizing base with
  | zero =>
    intro fuel
    cases fuel with
    | zero => simp [jobsetWaitLoop]
    | succ fuel =>
      have hk0 : jobsetPassCount (passes base) = n := hk
      simp [jobsetWaitLoop, hk0]
  | succ k ih =>
    intro fuel
    have hk1 : jobsetPassCount (passes (base + 1 + k)) = n := by
      rw [show base + 1 + k = base + (k + 1) by omega]
      exact hk
    have hbefore1 : ∀ j, j < k → jobsetPassCount (passes (base + 1 + j)) ≠ n := by
      intro j hj
      rw [show base + 1 + j = base + (j + 1) by omega]
      exact hbefore (j + 1) (by omega)
    cases fuel with
    | zero => simp [jobsetWaitLoop]
    | succ fuel =>
      have hne : jobsetPassCount (passes base) ≠ n := by
        simpa using hbefore 0 (by omega)
      simp only [jobsetWaitLoop, hne, if_neg]
      rw [ih (base + 1) hk1 hbefore1 fuel]
      rw [show base + 1 + k = base + (k + 1) by omega]
      simp [Nat.succ_lt_succ_iff]

/-- C8: in `JobSet.wait_for_completion`, a pass counts a member done exactly
when its status query yields a terminal state or raises; the loop returns at
the first pass whose done count equals the member count; and for the
three-job set answering `job-completed`, `job-failed` and an error, all three
count done and the loop returns after one full pass. -/
theorem jobset_wait_for_completion_pass (passes : Nat → List (Except String String))
    (n : Nat) :
    (∀ results : List (Except String String),
      jobsetPassCount results = results.countP passOutcomeDone) ∧
    (∀ p : Nat, jobsetPassCount (passes p) = n →
      (∀ q, q < p → jobsetPassCount (passes q) ≠ n) →
      ∀ fuel, jobsetWaitLoop passes n fuel 0 =
        if p < fuel then some p else Option.none) ∧
    (jobsetPassCount [Except.ok "job-completed", Except.ok "job-failed",
        Except.error "e"] = 3 ∧
      jobsetWaitLoop
        (fun _ => [Except.ok "job-completed", Except.ok "job-failed",
          Except.error "e"]) 3 1 0 = some 0) := by
  refine ⟨jobsetPassCount_eq_countP, ?_, by decide, by decide⟩
  intro p hp hbefore fuel
  have h := jobsetWaitLoop_first_full_pass_from passes n 0 p
    (by simpa using hp) (by intro j hj; simpa using hbefore j hj) fuel
  simpa using h

/-- C8 witness: the three-member pass `[completed, failed, error]` counts all
three done, and with pass 0 already full the loop returns during pass 0. -/
theorem jobset_wait_for_completion_witness :
    jobsetWaitLoop
      (fun _ => [Except.ok "job-completed", Except.ok "job-failed",
        Except.error "e"]) 3 5 0 = some 0 := by
  have h := (jobset_wait_for_completion_pass
    (fun _ => [Except.ok "job-completed", Except.ok "job-failed", Except.error "e"])
    3).2.1 0 (by decide) (by intro q hq; omega) 5
  simpa using h

end Otello
